import Mathlib

/-!
Verification development for the mhcflurry allele-specific training driver
(`script/mhcflurry-train-class1-allele-specific-models.py`).

The script's per-allele training loop is embedded as a pure function
`processAllele` that, given the command-line configuration, the loaded
per-allele dataset mapping, the imputed-dataset mapping and the current set
of files in the output directory, returns the outcome for one allele
together with the ordered trace of observable actions (model construction,
fitting, file removal, file writing) the script performs for that allele.
The filesystem is modelled as the list of paths present in the output
directory; `applyEvents` replays a trace against it.  `runLoop` folds
`processAllele` over the allele list exactly as the script's `for` loop
does, stopping at the first uncaught exception (KeyError on a missing
allele, AssertionError on a length-invariant violation).

Library functions that the script calls but whose code is outside the two
visible source files (`normalize_allele_name`, `imputer_from_name`,
`create_imputed_datasets`, `Class1BindingPredictor.fit` / `to_disk`) are
taken as parameters or modelled from the specification where marked.
-/

/-- Per-allele dataset bundle, as produced by `load_allele_datasets`:
encoded peptides `X_index`, measured affinities `Y`, per-sample `weights`
and the `original_peptides` strings.  Affinity values play no role in the
control flow, so they are carried as natural numbers. -/
structure AlleleData where
  X_index : List (List Nat)
  Y : List Nat
  weights : List Nat
  original_peptides : List String
deriving DecidableEq

/-- Association-list lookup keyed by allele name, modelling Python
dictionary indexing (`allele_data_dict[allele_name]`), with `none` standing
for a raised `KeyError`. -/
def lookupAllele (dict : List (String × AlleleData)) (k : String) :
    Option AlleleData :=
  match dict with
  | [] => none
  | (k', v) :: rest => if k' = k then some v else lookupAllele rest k

/-- Python `str.strip()`: drop whitespace from both ends. -/
def pyStrip (s : String) : String :=
  ⟨((s.data.dropWhile Char.isWhitespace).reverse.dropWhile
      Char.isWhitespace).reverse⟩

/-- Python `str.lower()` on ASCII text. -/
def pyLower (s : String) : String :=
  ⟨s.data.map Char.toLower⟩

/-- Python `str.isdigit()` on ASCII text: nonempty and all characters are
digits. -/
def pyIsDigit (s : String) : Bool :=
  !s.isEmpty && s.data.all Char.isDigit

/-- The `choices` tuple of the `--imputation-method` argparse option. -/
def imputationChoices : List String :=
  ["mice", "knn", "softimpute", "svd", "mean"]

/-- Resolution of a supplied `--imputation-method` value: argparse first
applies the `type` callable `lambda s: s.strip().lower()` and then checks
membership in `choices`, exiting with a usage error (`none`) otherwise. -/
def parseImputationMethodArg (s : String) : Option String :=
  let t := pyLower (pyStrip s)
  if t ∈ imputationChoices then some t else none

/-- Imputed-dataset mapping construction (script lines 128-138): when no
method string was supplied the imputer is `None` and the mapping is the
empty dict; otherwise the imputer comes from `imputer_from_name` and, when
that is not `None`, `create_imputed_datasets` is run over the whole
dataset mapping.  The two library functions are parameters. -/
def mkImputedDataDict
    (imputerFromName : String → Option Unit)
    (createImputedDatasets :
      List (String × AlleleData) → Option String → List (String × AlleleData))
    (imputationMethod : Option String)
    (allele_data_dict : List (String × AlleleData)) :
    List (String × AlleleData) :=
  let imputer : Option Unit :=
    match imputationMethod with
    | none => none
    | some m => imputerFromName m
  match imputer with
  | none => []
  | some _ => createImputedDatasets allele_data_dict imputationMethod

/-- Command-line configuration consumed by the training loop. -/
structure Config where
  overwrite : Bool
  min_samples_per_allele : Nat
  output_dir : String
deriving DecidableEq

/-- POSIX `os.path.join` for a directory and a plain file name. -/
def joinPath (d f : String) : String := d ++ "/" ++ f

/-- Structure-file path for a normalized allele name (script line 188-189). -/
def jsonPath (cfg : Config) (nname : String) : String :=
  joinPath cfg.output_dir (nname ++ ".json")

/-- Weights-file path for a normalized allele name (script line 191-192). -/
def hdfPath (cfg : Config) (nname : String) : String :=
  joinPath cfg.output_dir (nname ++ ".hdf")

/-- Observable actions the loop body performs for one allele, in source
order: `Class1BindingPredictor.from_hyperparameters`, `os.remove`,
`model.fit` (with its raw arrays and the three optional pre-training
arrays), and the file writes done by `model.to_disk`. -/
inductive Event where
  | constructModel (name : String)
  | removeFile (path : String)
  | fitModel (name : String) (X : List (List Nat)) (Y : List Nat)
      (sample_weights : List Nat)
      (X_pretrain : Option (List (List Nat)))
      (Y_pretrain : Option (List Nat))
      (sample_weights_pretrain : Option (List Nat))
  | writeFile (path : String)
deriving DecidableEq

/-- Result of the loop body for one allele. -/
inductive Outcome where
  | keyError
  | assertError
  | skippedDigit
  | skippedExists
  | skippedTooFew
  | trained
deriving DecidableEq

/-- An outcome that raises an uncaught exception and aborts the run. -/
def fatalOutcome : Outcome → Bool
  | Outcome.keyError => true
  | Outcome.assertError => true
  | _ => false

/-- Effect of one event on the set of files in the output directory.
`removeFile` models `os.remove`; `writeFile` models `to_disk` creating the
file (`Modelled from the spec:` the body of `Class1BindingPredictor.to_disk`
is not among the visible sources; per spec §4.4 step 10 it persists the
architecture and the weights to the two target paths). -/
def applyEvent (fs : List String) : Event → List String
  | Event.removeFile p => fs.filter (fun q => decide (q ≠ p))
  | Event.writeFile p => if p ∈ fs then fs else fs ++ [p]
  | _ => fs

/-- Replay a trace of events against the output directory. -/
def applyEvents (fs : List String) (evs : List Event) : List String :=
  evs.foldl applyEvent fs

/-- One iteration of the training loop (script lines 146-223) for allele
`allele_name`, given the normalization function `normalize`
(`normalize_allele_name`, library code taken as a parameter), the
configuration, the raw and imputed dataset mappings, and the files
currently present.  Returns the outcome and the ordered action trace. -/
def processAllele (normalize : String → String) (cfg : Config)
    (allele_data_dict imputed_data_dict : List (String × AlleleData))
    (fs : List String) (allele_name : String) : Outcome × List Event :=
  match lookupAllele allele_data_dict allele_name with
  | none => (Outcome.keyError, [])
  | some allele_data =>
    let n_allele := allele_data.Y.length
    if allele_data.X_index.length = n_allele ∧
        allele_data.weights.length = n_allele then
      let pretrain := lookupAllele imputed_data_dict allele_name
      let X_pretrain := Option.map AlleleData.X_index pretrain
      let Y_pretrain := Option.map AlleleData.Y pretrain
      let weights_pretrain := Option.map AlleleData.weights pretrain
      let nname := normalize allele_name
      if pyIsDigit nname then
        (Outcome.skippedDigit, [])
      else
        let json_path := jsonPath cfg nname
        let hdf_path := hdfPath cfg nname
        if json_path ∈ fs ∧ hdf_path ∈ fs ∧ cfg.overwrite = false then
          (Outcome.skippedExists, [Event.constructModel nname])
        else if n_allele < cfg.min_samples_per_allele then
          (Outcome.skippedTooFew, [Event.constructModel nname])
        else
          (Outcome.trained,
            [Event.constructModel nname] ++
            (if json_path ∈ fs then [Event.removeFile json_path] else []) ++
            (if hdf_path ∈ fs then [Event.removeFile hdf_path] else []) ++
            [Event.fitModel nname allele_data.X_index allele_data.Y
              allele_data.weights X_pretrain Y_pretrain weights_pretrain,
             Event.writeFile json_path, Event.writeFile hdf_path])
    else
      (Outcome.assertError, [])

/-- The whole `for allele_name in alleles:` loop: process each allele in
order, threading the output-directory state, stopping with the offending
allele, its outcome and the filesystem state at that moment when an
uncaught exception is raised. -/
def runLoop (normalize : String → String) (cfg : Config)
    (allele_data_dict imputed_data_dict : List (String × AlleleData))
    (fs : List String) :
    List String → Except (String × Outcome × List String) (List String)
  | [] => Except.ok fs
  | a :: rest =>
    let r := processAllele normalize cfg allele_data_dict imputed_data_dict fs a
    if fatalOutcome r.1 then
      Except.error (a, r.1, fs)
    else
      runLoop normalize cfg allele_data_dict imputed_data_dict
        (applyEvents fs r.2) rest

/-- True when every `removeFile` event in the trace occurs before every
`writeFile` event: once a write has happened, no removal follows. -/
def removesBeforeWrites : List Event → Bool
  | [] => true
  | Event.writeFile _ :: rest =>
    rest.all (fun e => match e with | Event.removeFile _ => false | _ => true)
      && removesBeforeWrites rest
  | _ :: rest => removesBeforeWrites rest

/-- Membership after a `writeFile`-style update of the file list. -/
theorem mem_write_update (fs : List String) (p q : String) :
    (q ∈ (if p ∈ fs then fs else fs ++ [p])) ↔ (q ∈ fs ∨ q = p) := by
  by_cases h : p ∈ fs
  · rw [if_pos h]
    constructor
    · exact Or.inl
    · rintro (hq | rfl)
      · exact hq
      · exact h
  · rw [if_neg h]
    simp

/-- Membership after a `removeFile`-style update of the file list. -/
theorem mem_remove_update (fs : List String) (p q : String) :
    (q ∈ fs.filter (fun x => decide (x ≠ p))) ↔ (q ∈ fs ∧ q ≠ p) := by
  simp

/-- C6: a supplied `--imputation-method` string is accepted exactly when,
after stripping surrounding whitespace and lower-casing, it equals one of
mice, knn, softimpute, svd, mean; every casing or whitespace variant of
those five names is therefore accepted, and anything else is a usage
error. -/
theorem imputation_method_resolution (s : String) :
    (pyLower (pyStrip s) ∈ imputationChoices →
      parseImputationMethodArg s = some (pyLower (pyStrip s))) ∧
    (pyLower (pyStrip s) ∉ imputationChoices →
      parseImputationMethodArg s = none) := by
  refine ⟨fun h => ?_, fun h => ?_⟩ <;> simp [parseImputationMethodArg, h]

/-- Witness for C6: the casing/whitespace variant "  SoftImpute  " is
accepted as "softimpute", and " magic " is rejected. -/
theorem imputation_method_resolution_witness :
    (pyLower (pyStrip "  SoftImpute  ") ∈ imputationChoices ∧
      parseImputationMethodArg "  SoftImpute  " =
        some (pyLower (pyStrip "  SoftImpute  "))) ∧
    (pyLower (pyStrip " magic ") ∉ imputationChoices ∧
      parseImputationMethodArg " magic " = none) :=
  ⟨⟨by decide, (imputation_method_resolution "  SoftImpute  ").1 (by decide)⟩,
    ⟨by decide, (imputation_method_resolution " magic ").2 (by decide)⟩⟩

/-- C8: when the allele's raw arrays have mismatched lengths the loop body
stops with an assertion failure before constructing a model or touching any
file (empty action trace); when the length invariant holds, the assertion
branch is never taken. -/
theorem length_invariant_assertion
    (normalize : String → String) (cfg : Config)
    (dict imputed : List (String × AlleleData)) (fs : List String)
    (a : String) (d : AlleleData)
    (hl : lookupAllele dict a = some d) :
    (¬(d.X_index.length = d.Y.length ∧ d.weights.length = d.Y.length) →
      processAllele normalize cfg dict imputed fs a =
        (Outcome.assertError, [])) ∧
    ((d.X_index.length = d.Y.length ∧ d.weights.length = d.Y.length) →
      (processAllele normalize cfg dict imputed fs a).1 ≠
        Outcome.assertError) := by
  constructor
  · intro h
    simp only [processAllele, hl]
    rw [if_neg h]
  · intro h
    simp only [processAllele, hl]
    rw [if_pos h]
    split
    · simp
    · split
      · simp
      · split <;> simp

/-- Witness for C8: a dataset with 2 peptide rows but 3 affinities trips
the assertion; the same dataset with matching lengths does not. -/
theorem length_invariant_assertion_witness :
    (¬((AlleleData.mk [[0], [1]] [1, 2, 3] [1, 1, 1] ["a", "b", "c"]).X_index.length =
        (AlleleData.mk [[0], [1]] [1, 2, 3] [1, 1, 1] ["a", "b", "c"]).Y.length ∧
      (AlleleData.mk [[0], [1]] [1, 2, 3] [1, 1, 1] ["a", "b", "c"]).weights.length =
        (AlleleData.mk [[0], [1]] [1, 2, 3] [1, 1, 1] ["a", "b", "c"]).Y.length)) ∧
    processAllele (fun s => s) (Config.mk false 5 "models")
      [("HLA-A0201", AlleleData.mk [[0], [1]] [1, 2, 3] [1, 1, 1] ["a", "b", "c"])]
      [] [] "HLA-A0201" =
      (Outcome.assertError, []) :=
  ⟨by decide,
    (length_invariant_assertion (fun s => s) (Config.mk false 5 "models")
      [("HLA-A0201", AlleleData.mk [[0], [1]] [1, 2, 3] [1, 1, 1] ["a", "b", "c"])]
      [] [] "HLA-A0201"
      (AlleleData.mk [[0], [1]] [1, 2, 3] [1, 1, 1] ["a", "b", "c"])
      (by decide)).1 (by decide)⟩

/-- C5: an allele whose normalized name is purely numeric is skipped with
an empty action trace — no model construction, no fit, no file change —
for every overwrite flag, threshold and output-directory state. -/
theorem digit_name_always_skipped
    (normalize : String → String) (cfg : Config)
    (dict imputed : List (String × AlleleData)) (fs : List String)
    (a : String) (d : AlleleData)
    (hl : lookupAllele dict a = some d)
    (hlen : d.X_index.length = d.Y.length ∧ d.weights.length = d.Y.length)
    (hdig : pyIsDigit (normalize a) = true) :
    processAllele normalize cfg dict imputed fs a =
      (Outcome.skippedDigit, []) := by
  simp only [processAllele, hl]
  rw [if_pos hlen, if_pos hdig]

/-- Witness for C5: a normalization returning "0201" forces the skip even
with overwrite set, threshold 0 and a populated output directory. -/
theorem digit_name_always_skipped_witness :
    lookupAllele [("HLA-A0201", AlleleData.mk [[0]] [1] [1] ["a"])]
        "HLA-A0201" = some (AlleleData.mk [[0]] [1] [1] ["a"]) ∧
    pyIsDigit ((fun _ => "0201") "HLA-A0201") = true ∧
    processAllele (fun _ => "0201") (Config.mk true 0 "models")
      [("HLA-A0201", AlleleData.mk [[0]] [1] [1] ["a"])] []
      ["models/0201.json", "models/0201.hdf"] "HLA-A0201" =
      (Outcome.skippedDigit, []) :=
  ⟨by decide, by decide,
    digit_name_always_skipped (fun _ => "0201") (Config.mk true 0 "models")
      [("HLA-A0201", AlleleData.mk [[0]] [1] [1] ["a"])] []
      ["models/0201.json", "models/0201.hdf"] "HLA-A0201"
      (AlleleData.mk [[0]] [1] [1] ["a"]) (by decide) (by decide) (by decide)⟩

/-- C2: when both artifact files already exist and overwrite is off, the
loop body stops at the existence check — the only action is the model
construction that precedes the check, no fit and no file event occurs, and
replaying the trace leaves the output directory unchanged, so a rerun on a
materialized directory is idempotent. -/
theorem existing_artifacts_skip
    (normalize : String → String) (cfg : Config)
    (dict imputed : List (String × AlleleData)) (fs : List String)
    (a : String) (d : AlleleData)
    (hl : lookupAllele dict a = some d)
    (hlen : d.X_index.length = d.Y.length ∧ d.weights.length = d.Y.length)
    (hdig : pyIsDigit (normalize a) = false)
    (hj : jsonPath cfg (normalize a) ∈ fs)
    (hh : hdfPath cfg (normalize a) ∈ fs)
    (hov : cfg.overwrite = false) :
    processAllele normalize cfg dict imputed fs a =
      (Outcome.skippedExists, [Event.constructModel (normalize a)]) ∧
    applyEvents fs (processAllele normalize cfg dict imputed fs a).2 = fs := by
  have h1 : processAllele normalize cfg dict imputed fs a =
      (Outcome.skippedExists, [Event.constructModel (normalize a)]) := by
    simp only [processAllele, hl]
    rw [if_pos hlen, if_neg (by simp [hdig])]
    rw [if_pos ⟨hj, hh, hov⟩]
  refine ⟨h1, ?_⟩
  rw [h1]
  rfl

/-- Witness for C2: with both files present and overwrite off, processing
allele HLA-A0201 is a skip that leaves the directory as it was. -/
theorem existing_artifacts_skip_witness :
    lookupAllele [("HLA-A0201", AlleleData.mk [[0]] [1] [1] ["a"])]
        "HLA-A0201" = some (AlleleData.mk [[0]] [1] [1] ["a"]) ∧
    jsonPath (Config.mk false 1 "models") ((fun s => s) "HLA-A0201") ∈
      ["models/HLA-A0201.json", "models/HLA-A0201.hdf"] ∧
    processAllele (fun s => s) (Config.mk false 1 "models")
      [("HLA-A0201", AlleleData.mk [[0]] [1] [1] ["a"])] []
      ["models/HLA-A0201.json", "models/HLA-A0201.hdf"] "HLA-A0201" =
      (Outcome.skippedExists, [Event.constructModel "HLA-A0201"]) ∧
    applyEvents ["models/HLA-A0201.json", "models/HLA-A0201.hdf"]
      (processAllele (fun s => s) (Config.mk false 1 "models")
        [("HLA-A0201", AlleleData.mk [[0]] [1] [1] ["a"])] []
        ["models/HLA-A0201.json", "models/HLA-A0201.hdf"] "HLA-A0201").2 =
      ["models/HLA-A0201.json", "models/HLA-A0201.hdf"] := by
  have h := existing_artifacts_skip (fun s => s) (Config.mk false 1 "models")
    [("HLA-A0201", AlleleData.mk [[0]] [1] [1] ["a"])] []
    ["models/HLA-A0201.json", "models/HLA-A0201.hdf"] "HLA-A0201"
    (AlleleData.mk [[0]] [1] [1] ["a"])
    (by decide) (by decide) (by decide) (by decide) (by decide) (by decide)
  exact ⟨by decide, by decide, h.1, h.2⟩

/-- C4: an allele whose sample count is below the threshold never reaches
the removal, fit or write actions, so replaying its trace changes no file
in the output directory. -/
theorem too_few_samples_no_file_change
    (normalize : String → String) (cfg : Config)
    (dict imputed : List (String × AlleleData)) (fs : List String)
    (a : String) (d : AlleleData)
    (hl : lookupAllele dict a = some d)
    (hfew : d.Y.length < cfg.min_samples_per_allele) :
    applyEvents fs (processAllele normalize cfg dict imputed fs a).2 = fs := by
  simp only [processAllele, hl]
  repeat' split
  all_goals rfl

/-- Witness for C4: one sample against a threshold of 5 leaves a
populated output directory untouched. -/
theorem too_few_samples_no_file_change_witness :
    (AlleleData.mk [[0]] [1] [1] ["a"]).Y.length <
      (Config.mk false 5 "models").min_samples_per_allele ∧
    applyEvents ["models/other.json"]
      (processAllele (fun s => s) (Config.mk false 5 "models")
        [("HLA-A0201", AlleleData.mk [[0]] [1] [1] ["a"])] []
        ["models/other.json"] "HLA-A0201").2 =
      ["models/other.json"] :=
  ⟨by decide,
    too_few_samples_no_file_change (fun s => s) (Config.mk false 5 "models")
      [("HLA-A0201", AlleleData.mk [[0]] [1] [1] ["a"])] []
      ["models/other.json"] "HLA-A0201" (AlleleData.mk [[0]] [1] [1] ["a"])
      (by decide) (by decide)⟩

/-- C7: with no imputation method selected the imputed-dataset mapping is
the empty dict, and for an allele absent from the imputed-dataset mapping
the fit call receives `none` for all three pre-training arrays. -/
theorem no_imputation_no_pretrain
    (imputerFromName : String → Option Unit)
    (createImputedDatasets :
      List (String × AlleleData) → Option String → List (String × AlleleData))
    (ddict : List (String × AlleleData))
    (normalize : String → String) (cfg : Config)
    (dict imputed : List (String × AlleleData)) (fs : List String)
    (a : String)
    (habs : lookupAllele imputed a = none) :
    mkImputedDataDict imputerFromName createImputedDatasets none ddict = [] ∧
    (∀ nm X Y W Xp Yp Wp,
      Event.fitModel nm X Y W Xp Yp Wp ∈
        (processAllele normalize cfg dict imputed fs a).2 →
      Xp = none ∧ Yp = none ∧ Wp = none) := by
  refine ⟨rfl, ?_⟩
  intro nm X Y W Xp Yp Wp hmem
  rcases hd : lookupAllele dict a with _ | data
  · simp [processAllele, hd] at hmem
  · simp only [processAllele, hd, habs, Option.map_none'] at hmem
    split at hmem
    · split at hmem
      · simp at hmem
      · split at hmem
        · simp at hmem
        · split at hmem
          · simp at hmem
          · split at hmem <;> split at hmem <;> simp_all
    · simp at hmem

/-- Witness for C7: with the imputed mapping empty, allele HLA-A0201 is
fitted with `none` in every pre-training slot. -/
theorem no_imputation_no_pretrain_witness :
    mkImputedDataDict (fun _ => some ()) (fun d _ => d) none
        [("HLA-A0201", AlleleData.mk [[0]] [1] [1] ["a"])] = [] ∧
    lookupAllele [] "HLA-A0201" = none ∧
    (Event.fitModel "HLA-A0201" [[0]] [1] [1] none none none ∈
        (processAllele (fun s => s) (Config.mk false 1 "models")
          [("HLA-A0201", AlleleData.mk [[0]] [1] [1] ["a"])] [] []
          "HLA-A0201").2 →
      (none : Option (List (List Nat))) = none ∧
      (none : Option (List Nat)) = none ∧
      (none : Option (List Nat)) = none) :=
  ⟨(no_imputation_no_pretrain (fun _ => some ()) (fun d _ => d)
      [("HLA-A0201", AlleleData.mk [[0]] [1] [1] ["a"])]
      (fun s => s) (Config.mk false 1 "models")
      [("HLA-A0201", AlleleData.mk [[0]] [1] [1] ["a"])] [] []
      "HLA-A0201" (by decide)).1,
    by decide,
    (no_imputation_no_pretrain (fun _ => some ()) (fun d _ => d)
      [("HLA-A0201", AlleleData.mk [[0]] [1] [1] ["a"])]
      (fun s => s) (Config.mk false 1 "models")
      [("HLA-A0201", AlleleData.mk [[0]] [1] [1] ["a"])] [] []
      "HLA-A0201" (by decide)).2 "HLA-A0201" [[0]] [1] [1] none none none⟩

/-- Closed form of the loop body on the path that trains: with the allele
present, the length invariant holding, a non-numeric normalized name, the
existence-skip not firing and enough samples, the body returns `trained`
and the source-ordered trace: construct, conditional removals of each
pre-existing artifact, fit, then the two writes. -/
theorem processAllele_trained_eq
    (normalize : String → String) (cfg : Config)
    (dict imputed : List (String × AlleleData)) (fs : List String)
    (a : String) (d : AlleleData)
    (hl : lookupAllele dict a = some d)
    (hlen : d.X_index.length = d.Y.length ∧ d.weights.length = d.Y.length)
    (hdig : pyIsDigit (normalize a) = false)
    (hskip : ¬(jsonPath cfg (normalize a) ∈ fs ∧
      hdfPath cfg (normalize a) ∈ fs ∧ cfg.overwrite = false))
    (hmin : cfg.min_samples_per_allele ≤ d.Y.length) :
    processAllele normalize cfg dict imputed fs a =
      (Outcome.trained,
        [Event.constructModel (normalize a)] ++
        (if jsonPath cfg (normalize a) ∈ fs
          then [Event.removeFile (jsonPath cfg (normalize a))] else []) ++
        (if hdfPath cfg (normalize a) ∈ fs
          then [Event.removeFile (hdfPath cfg (normalize a))] else []) ++
        [Event.fitModel (normalize a) d.X_index d.Y d.weights
          (Option.map AlleleData.X_index (lookupAllele imputed a))
          (Option.map AlleleData.Y (lookupAllele imputed a))
          (Option.map AlleleData.weights (lookupAllele imputed a)),
         Event.writeFile (jsonPath cfg (normalize a)),
         Event.writeFile (hdfPath cfg (normalize a))]) := by
  simp only [processAllele, hl]
  rw [if_pos hlen, if_neg (by simp [hdig]), if_neg hskip,
    if_neg (Nat.not_lt.mpr hmin)]

/-- C1: on the training path (enough samples, artifacts not both present
or overwrite on, non-numeric name) one loop iteration leaves exactly the
two artifact files `<name>.json` and `<name>.hdf` for the allele in the
output directory and touches no other file. -/
theorem trained_allele_produces_exactly_two_files
    (normalize : String → String) (cfg : Config)
    (dict imputed : List (String × AlleleData)) (fs : List String)
    (a : String) (d : AlleleData)
    (hl : lookupAllele dict a = some d)
    (hlen : d.X_index.length = d.Y.length ∧ d.weights.length = d.Y.length)
    (hdig : pyIsDigit (normalize a) = false)
    (hskip : ¬(jsonPath cfg (normalize a) ∈ fs ∧
      hdfPath cfg (normalize a) ∈ fs ∧ cfg.overwrite = false))
    (hmin : cfg.min_samples_per_allele ≤ d.Y.length) :
    (processAllele normalize cfg dict imputed fs a).1 = Outcome.trained ∧
    jsonPath cfg (normalize a) ∈
      applyEvents fs (processAllele normalize cfg dict imputed fs a).2 ∧
    hdfPath cfg (normalize a) ∈
      applyEvents fs (processAllele normalize cfg dict imputed fs a).2 ∧
    (∀ p, p ≠ jsonPath cfg (normalize a) → p ≠ hdfPath cfg (normalize a) →
      ((p ∈ applyEvents fs (processAllele normalize cfg dict imputed fs a).2) ↔
        p ∈ fs)) := by
  rw [processAllele_trained_eq normalize cfg dict imputed fs a d
    hl hlen hdig hskip hmin]
  refine ⟨rfl, ?_, ?_, ?_⟩ <;>
    by_cases hj : jsonPath cfg (normalize a) ∈ fs <;>
    by_cases hh : hdfPath cfg (normalize a) ∈ fs <;>
    simp only [hj, hh, if_pos, if_neg, if_true, if_false, ite_true, ite_false,
      List.cons_append, List.nil_append, List.singleton_append,
      applyEvents, List.foldl_cons, List.foldl_nil, applyEvent,
      mem_write_update, mem_remove_update]
  · simp
  · simp
  · simp
  · simp
  · simp
  · simp
  · simp
  · simp
  · intro p hpj hph
    simp [hpj, hph]
  · intro p hpj hph
    simp [hpj, hph]
  · intro p hpj hph
    simp [hpj, hph]
  · intro p hpj hph
    simp [hpj, hph]

/-- C3: on the training path with overwrite on, every artifact file of the
allele that is present is removed, every removal in the trace happens
before every write, and both fresh files are written. -/
theorem overwrite_removes_stale_before_write
    (normalize : String → String) (cfg : Config)
    (dict imputed : List (String × AlleleData)) (fs : List String)
    (a : String) (d : AlleleData)
    (hl : lookupAllele dict a = some d)
    (hlen : d.X_index.length = d.Y.length ∧ d.weights.length = d.Y.length)
    (hdig : pyIsDigit (normalize a) = false)
    (hov : cfg.overwrite = true)
    (hmin : cfg.min_samples_per_allele ≤ d.Y.length) :
    (processAllele normalize cfg dict imputed fs a).1 = Outcome.trained ∧
    (jsonPath cfg (normalize a) ∈ fs →
      Event.removeFile (jsonPath cfg (normalize a)) ∈
        (processAllele normalize cfg dict imputed fs a).2) ∧
    (hdfPath cfg (normalize a) ∈ fs →
      Event.removeFile (hdfPath cfg (normalize a)) ∈
        (processAllele normalize cfg dict imputed fs a).2) ∧
    removesBeforeWrites (processAllele normalize cfg dict imputed fs a).2 =
      true ∧
    Event.writeFile (jsonPath cfg (normalize a)) ∈
      (processAllele normalize cfg dict imputed fs a).2 ∧
    Event.writeFile (hdfPath cfg (normalize a)) ∈
      (processAllele normalize cfg dict imputed fs a).2 := by
  rw [processAllele_trained_eq normalize cfg dict imputed fs a d
    hl hlen hdig (by simp [hov]) hmin]
  by_cases hj : jsonPath cfg (normalize a) ∈ fs <;>
    by_cases hh : hdfPath cfg (normalize a) ∈ fs <;>
    refine ⟨rfl, ?_, ?_, ?_, ?_, ?_⟩ <;>
    simp only [hj, hh, ite_true, ite_false, if_true, if_false,
      List.cons_append, List.nil_append, List.singleton_append] <;>
    first
      | rfl
      | simp [hj, hh]

/-- Witness for C3: overwrite on, both stale files present: they are
removed, removals precede writes, and both files are rewritten. -/
theorem overwrite_removes_stale_before_write_witness :
    (Config.mk true 1 "models").overwrite = true ∧
    ((processAllele (fun s => s) (Config.mk true 1 "models")
        [("HLA-A0201", AlleleData.mk [[0]] [1] [1] ["a"])] []
        ["models/HLA-A0201.json", "models/HLA-A0201.hdf"] "HLA-A0201").1 =
      Outcome.trained ∧
    (jsonPath (Config.mk true 1 "models") ((fun s => s) "HLA-A0201") ∈
        ["models/HLA-A0201.json", "models/HLA-A0201.hdf"] →
      Event.removeFile
          (jsonPath (Config.mk true 1 "models") ((fun s => s) "HLA-A0201")) ∈
        (processAllele (fun s => s) (Config.mk true 1 "models")
          [("HLA-A0201", AlleleData.mk [[0]] [1] [1] ["a"])] []
          ["models/HLA-A0201.json", "models/HLA-A0201.hdf"] "HLA-A0201").2) ∧
    (hdfPath (Config.mk true 1 "models") ((fun s => s) "HLA-A0201") ∈
        ["models/HLA-A0201.json", "models/HLA-A0201.hdf"] →
      Event.removeFile
          (hdfPath (Config.mk true 1 "models") ((fun s => s) "HLA-A0201")) ∈
        (processAllele (fun s => s) (Config.mk true 1 "models")
          [("HLA-A0201", AlleleData.mk [[0]] [1] [1] ["a"])] []
          ["models/HLA-A0201.json", "models/HLA-A0201.hdf"] "HLA-A0201").2) ∧
    removesBeforeWrites
        (processAllele (fun s => s) (Config.mk true 1 "models")
          [("HLA-A0201", AlleleData.mk [[0]] [1] [1] ["a"])] []
          ["models/HLA-A0201.json", "models/HLA-A0201.hdf"] "HLA-A0201").2 =
      true ∧
    Event.writeFile
        (jsonPath (Config.mk true 1 "models") ((fun s => s) "HLA-A0201")) ∈
      (processAllele (fun s => s) (Config.mk true 1 "models")
        [("HLA-A0201", AlleleData.mk [[0]] [1] [1] ["a"])] []
        ["models/HLA-A0201.json", "models/HLA-A0201.hdf"] "HLA-A0201").2 ∧
    Event.writeFile
        (hdfPath (Config.mk true 1 "models") ((fun s => s) "HLA-A0201")) ∈
      (processAllele (fun s => s) (Config.mk true 1 "models")
        [("HLA-A0201", AlleleData.mk [[0]] [1] [1] ["a"])] []
        ["models/HLA-A0201.json", "models/HLA-A0201.hdf"] "HLA-A0201").2) :=
  ⟨rfl,
    overwrite_removes_stale_before_write (fun s => s) (Config.mk true 1 "models")
      [("HLA-A0201", AlleleData.mk [[0]] [1] [1] ["a"])] []
      ["models/HLA-A0201.json", "models/HLA-A0201.hdf"] "HLA-A0201"
      (AlleleData.mk [[0]] [1] [1] ["a"])
      (by decide) (by decide) (by decide) (by decide) (by decide)⟩

/-- C9: with overwrite off and enough samples, an allele with exactly one
of its two artifact files present is not skipped: the body trains, the
present file is removed, a fit is invoked, and both files are present
afterwards. -/
theorem single_stale_artifact_retrained
    (normalize : String → String) (cfg : Config)
    (dict imputed : List (String × AlleleData)) (fs : List String)
    (a : String) (d : AlleleData)
    (hl : lookupAllele dict a = some d)
    (hlen : d.X_index.length = d.Y.length ∧ d.weights.length = d.Y.length)
    (hdig : pyIsDigit (normalize a) = false)
    (hov : cfg.overwrite = false)
    (hmin : cfg.min_samples_per_allele ≤ d.Y.length)
    (hone : (jsonPath cfg (normalize a) ∈ fs ∧
        hdfPath cfg (normalize a) ∉ fs) ∨
      (jsonPath cfg (normalize a) ∉ fs ∧ hdfPath cfg (normalize a) ∈ fs)) :
    (processAllele normalize cfg dict imputed fs a).1 = Outcome.trained ∧
    (∀ p, (p = jsonPath cfg (normalize a) ∨ p = hdfPath cfg (normalize a)) →
      p ∈ fs →
      Event.removeFile p ∈ (processAllele normalize cfg dict imputed fs a).2) ∧
    (∃ Xp Yp Wp,
      Event.fitModel (normalize a) d.X_index d.Y d.weights Xp Yp Wp ∈
        (processAllele normalize cfg dict imputed fs a).2) ∧
    jsonPath cfg (normalize a) ∈
      applyEvents fs (processAllele normalize cfg dict imputed fs a).2 ∧
    hdfPath cfg (normalize a) ∈
      applyEvents fs (processAllele normalize cfg dict imputed fs a).2 := by
  have hskip : ¬(jsonPath cfg (normalize a) ∈ fs ∧
      hdfPath cfg (normalize a) ∈ fs ∧ cfg.overwrite = false) := by
    rcases hone with ⟨_, h2⟩ | ⟨h1, _⟩
    · rintro ⟨_, c2, _⟩
      exact h2 c2
    · rintro ⟨c1, _, _⟩
      exact h1 c1
  rw [processAllele_trained_eq normalize cfg dict imputed fs a d
    hl hlen hdig hskip hmin]
  rcases hone with ⟨hj, hh⟩ | ⟨hj, hh⟩ <;>
    refine ⟨rfl, ?_, ?_, ?_, ?_⟩ <;>
    simp only [hj, hh, ite_true, ite_false, if_true, if_false,
      List.cons_append, List.nil_append, List.singleton_append,
      applyEvents, List.foldl_cons, List.foldl_nil, applyEvent,
      mem_write_update, mem_remove_update]
  · rintro p (rfl | rfl) hpf
    · simp
    · exact absurd hpf hh
  · exact ⟨Option.map AlleleData.X_index (lookupAllele imputed a),
      Option.map AlleleData.Y (lookupAllele imputed a),
      Option.map AlleleData.weights (lookupAllele imputed a), by simp⟩
  · simp
  · simp
  · rintro p (rfl | rfl) hpf
    · exact absurd hpf hj
    · simp
  · exact ⟨Option.map AlleleData.X_index (lookupAllele imputed a),
      Option.map AlleleData.Y (lookupAllele imputed a),
      Option.map AlleleData.weights (lookupAllele imputed a), by simp⟩
  · simp
  · simp

/-- Witness for C9: overwrite off, only the json file present, threshold
met: the allele is retrained, the stale json is removed and both files
exist afterwards. -/
theorem single_stale_artifact_retrained_witness :
    (Config.mk false 1 "models").overwrite = false ∧
    (jsonPath (Config.mk false 1 "models") ((fun s => s) "HLA-A0201") ∈
        ["models/HLA-A0201.json"] ∧
      hdfPath (Config.mk false 1 "models") ((fun s => s) "HLA-A0201") ∉
        ["models/HLA-A0201.json"]) ∧
    ((processAllele (fun s => s) (Config.mk false 1 "models")
        [("HLA-A0201", AlleleData.mk [[0]] [1] [1] ["a"])] []
        ["models/HLA-A0201.json"] "HLA-A0201").1 = Outcome.trained ∧
    (∀ p, (p = jsonPath (Config.mk false 1 "models") ((fun s => s) "HLA-A0201") ∨
        p = hdfPath (Config.mk false 1 "models") ((fun s => s) "HLA-A0201")) →
      p ∈ ["models/HLA-A0201.json"] →
      Event.removeFile p ∈
        (processAllele (fun s => s) (Config.mk false 1 "models")
          [("HLA-A0201", AlleleData.mk [[0]] [1] [1] ["a"])] []
          ["models/HLA-A0201.json"] "HLA-A0201").2) ∧
    (∃ Xp Yp Wp,
      Event.fitModel ((fun s => s) "HLA-A0201") [[0]] [1] [1] Xp Yp Wp ∈
        (processAllele (fun s => s) (Config.mk false 1 "models")
          [("HLA-A0201", AlleleData.mk [[0]] [1] [1] ["a"])] []
          ["models/HLA-A0201.json"] "HLA-A0201").2) ∧
    jsonPath (Config.mk false 1 "models") ((fun s => s) "HLA-A0201") ∈
      applyEvents ["models/HLA-A0201.json"]
        (processAllele (fun s => s) (Config.mk false 1 "models")
          [("HLA-A0201", AlleleData.mk [[0]] [1] [1] ["a"])] []
          ["models/HLA-A0201.json"] "HLA-A0201").2 ∧
    hdfPath (Config.mk false 1 "models") ((fun s => s) "HLA-A0201") ∈
      applyEvents ["models/HLA-A0201.json"]
        (processAllele (fun s => s) (Config.mk false 1 "models")
          [("HLA-A0201", AlleleData.mk [[0]] [1] [1] ["a"])] []
          ["models/HLA-A0201.json"] "HLA-A0201").2) :=
  ⟨rfl, ⟨by decide, by decide⟩,
    single_stale_artifact_retrained (fun s => s) (Config.mk false 1 "models")
      [("HLA-A0201", AlleleData.mk [[0]] [1] [1] ["a"])] []
      ["models/HLA-A0201.json"] "HLA-A0201"
      (AlleleData.mk [[0]] [1] [1] ["a"])
      (by decide) (by decide) (by decide) (by decide) (by decide)
      (Or.inl ⟨by decide, by decide⟩)⟩

/-- C10: a user-specified allele missing from the dataset mapping makes the
run abort with a KeyError the moment the loop reaches it: any earlier
alleles have been processed, the output directory is exactly as they left
it, and nothing is constructed, fitted or written for the missing allele or
any later one. -/
theorem unknown_allele_aborts_run
    (normalize : String → String) (cfg : Config)
    (dict imputed : List (String × AlleleData))
    (a : String) (post : List String)
    (habs : lookupAllele dict a = none) :
    ∀ (pre : List String) (fs fs' : List String),
      runLoop normalize cfg dict imputed fs pre = Except.ok fs' →
      (runLoop normalize cfg dict imputed fs (pre ++ a :: post) =
        Except.error (a, Outcome.keyError, fs') ∧
      processAllele normalize cfg dict imputed fs' a =
        (Outcome.keyError, [])) := by
  intro pre
  induction pre with
  | nil =>
    intro fs fs' hok
    have hfs : fs = fs' := by
      simpa [runLoop] using hok
    subst hfs
    constructor
    · simp [runLoop, processAllele, habs, fatalOutcome]
    · simp [processAllele, habs]
  | cons b bs ih =>
    intro fs fs' hok
    rw [List.cons_append]
    simp only [runLoop] at hok ⊢
    split at hok
    · exact Except.noConfusion hok
    · rename_i h
      obtain ⟨h1, h2⟩ := ih _ _ hok
      rw [if_neg h]
      exact ⟨h1, h2⟩

/-- Witness for C10: with dataset entries only for allele A, running on
the list [A, B, C] aborts at B carrying the state A left behind. -/
theorem unknown_allele_aborts_run_witness :
    runLoop (fun s => s) (Config.mk false 1 "models")
        [("A", AlleleData.mk [[0]] [1] [1] ["a"])] [] [] ["A"] =
      Except.ok ["models/A.json", "models/A.hdf"] ∧
    lookupAllele [("A", AlleleData.mk [[0]] [1] [1] ["a"])] "B" = none ∧
    (runLoop (fun s => s) (Config.mk false 1 "models")
        [("A", AlleleData.mk [[0]] [1] [1] ["a"])] [] []
        (["A"] ++ "B" :: ["C"]) =
      Except.error ("B", Outcome.keyError, ["models/A.json", "models/A.hdf"]) ∧
    processAllele (fun s => s) (Config.mk false 1 "models")
        [("A", AlleleData.mk [[0]] [1] [1] ["a"])] []
        ["models/A.json", "models/A.hdf"] "B" = (Outcome.keyError, [])) := by
  have h := unknown_allele_aborts_run (fun s => s) (Config.mk false 1 "models")
    [("A", AlleleData.mk [[0]] [1] [1] ["a"])] [] "B" ["C"] (by rfl)
    ["A"] [] ["models/A.json", "models/A.hdf"] (by rfl)
  exact ⟨by rfl, by rfl, h⟩

/-- Witness for C1: an empty output directory, threshold met, overwrite
off: processing HLA-A0201 trains and leaves exactly the files
models/HLA-A0201.json and models/HLA-A0201.hdf. -/
theorem trained_allele_produces_exactly_two_files_witness :
    (Config.mk false 1 "models").min_samples_per_allele ≤
      (AlleleData.mk [[0]] [1] [1] ["a"]).Y.length ∧
    ((processAllele (fun s => s) (Config.mk false 1 "models")
        [("HLA-A0201", AlleleData.mk [[0]] [1] [1] ["a"])] [] []
        "HLA-A0201").1 = Outcome.trained ∧
    jsonPath (Config.mk false 1 "models") ((fun s => s) "HLA-A0201") ∈
      applyEvents []
        (processAllele (fun s => s) (Config.mk false 1 "models")
          [("HLA-A0201", AlleleData.mk [[0]] [1] [1] ["a"])] [] []
          "HLA-A0201").2 ∧
    hdfPath (Config.mk false 1 "models") ((fun s => s) "HLA-A0201") ∈
      applyEvents []
        (processAllele (fun s => s) (Config.mk false 1 "models")
          [("HLA-A0201", AlleleData.mk [[0]] [1] [1] ["a"])] [] []
          "HLA-A0201").2 ∧
    (∀ p, p ≠ jsonPath (Config.mk false 1 "models") ((fun s => s) "HLA-A0201") →
      p ≠ hdfPath (Config.mk false 1 "models") ((fun s => s) "HLA-A0201") →
      ((p ∈ applyEvents []
          (processAllele (fun s => s) (Config.mk false 1 "models")
            [("HLA-A0201", AlleleData.mk [[0]] [1] [1] ["a"])] [] []
            "HLA-A0201").2) ↔ p ∈ ([] : List String)))) :=
  ⟨by decide,
    trained_allele_produces_exactly_two_files (fun s => s)
      (Config.mk false 1 "models")
      [("HLA-A0201", AlleleData.mk [[0]] [1] [1] ["a"])] [] []
      "HLA-A0201" (AlleleData.mk [[0]] [1] [1] ["a"])
      (by decide) (by decide) (by decide) (by decide) (by decide)⟩
